import Mathlib

/-!
Shallow embedding of the cc26x0 chip-support core (sleep orchestration,
AUX domain controller, interrupt routing, BLE advertising path) from
`src/chips/cc26x0/src/{chip.rs, aux.rs, radio/ble.rs}`, together with
theorems checking the design specification against it.

Machine integers are modelled as `Nat` with explicit masking where the
source truncates; fallible code (Rust panics: slice-range failures,
index-out-of-bounds, `panic!`, `unimplemented!`) is modelled with
`Option`, `none` standing for an aborted execution. Memory-mapped
register writes and calls into external collaborator modules (PRCM, AON,
RTC, VIMS — whose sources live outside this crate's core files) are
modelled as abstract events in a recorded trace, exactly at the
granularity at which `chip.rs` invokes them.
-/

namespace Cc26x0

/-! ## BLE advertising path (`radio/ble.rs`) -/

/-- Abstract addresses of the static DMA-visible buffers. The source
stores raw pointers (`&mut DEVICE_ADDRESS[0] as *mut u8`,
`BLE_ADV_PAYLOAD.as_ptr() as u32`, `BLE_PARAMS_BUF.as_ptr() as u32`);
their numeric values are linker-chosen, so we model which buffer a
pointer field designates. `null` is the zeroed (0) pointer value. -/
inductive Ptr
  | null
  | deviceAddressBuf
  | bleAdvPayloadBuf
  | bleParamsBuf
deriving DecidableEq, Repr

/-- `BleAdvertiseParams` (`ble.rs`, `ble_commands`): the DMA-visible
parameter block. Byte/word fields are `Nat`; pointer fields are `Ptr`. -/
structure BleAdvertiseParams where
  rx_queue : Ptr
  rx_config : Nat
  adv_config : Nat
  adv_len : Nat
  scan_rsp_len : Nat
  adv_data : Ptr
  scan_rsp_data : Ptr
  device_address : Ptr
  white_list : Ptr
  dummy0 : Nat
  dummy1 : Nat
  end_trigger : Nat
  end_time : Nat
deriving DecidableEq, Repr

/-- The zeroed parameter region (`BLE_PARAMS_BUF[i] = 0` for all `i`). -/
def zeroParams : BleAdvertiseParams :=
  { rx_queue := Ptr.null, rx_config := 0, adv_config := 0, adv_len := 0,
    scan_rsp_len := 0, adv_data := Ptr.null, scan_rsp_data := Ptr.null,
    device_address := Ptr.null, white_list := Ptr.null, dummy0 := 0,
    dummy1 := 0, end_trigger := 0, end_time := 0 }

/-- `BleAdvertise` (`ble.rs`, `ble_commands`): the radio command
descriptor living in the packet region. -/
structure BleAdvertise where
  command_no : Nat
  status : Nat
  p_nextop : Nat
  ratmr : Nat
  start_trigger : Nat
  condition : Nat
  channel : Nat
  whitening : Nat
  params : Ptr
  output : Nat
deriving DecidableEq, Repr

/-- The zeroed packet region (`PACKET_BUF[i] = 0`). -/
def zeroPacket : BleAdvertise :=
  { command_no := 0, status := 0, p_nextop := 0, ratmr := 0,
    start_trigger := 0, condition := 0, channel := 0, whitening := 0,
    params := Ptr.null, output := 0 }

/-- `BleWhitening` setter `set_init` from the `bitfield!` declaration
`pub _init, set_init: 6, 0;` — the init field occupies bits 6..0, so the
setter replaces bits 0..6 of the byte with the low 7 bits of `v`. -/
def wht_set_init (w v : Nat) : Nat := (w &&& 0x80) ||| (v &&& 0x7F)

/-- `BleWhitening` setter `set_override` from the `bitfield!` declaration
`pub _override, set_override: 1;` — a single-bit field at bit 1. -/
def wht_set_override (w : Nat) (b : Bool) : Nat :=
  if b then w ||| 0x02 else w &&& 0xFD

/-- The whitening byte the source builds:
`BleWhitening(0)` then `set_override(true)` then `set_init(0x51)`. -/
def ble_whitening_byte : Nat :=
  wht_set_init (wht_set_override 0 true) 0x51

/-- Modelled from the spec: `RfcCondition` is declared in
`radio/rfc.rs`, which is not among the core source files; the spec says
the condition is populated with "condition rule = 1 (never re-execute)"
(`cnd.set_rule(1)`), so the condition byte is modelled as holding the
rule value directly. -/
def rfc_condition_set_rule (rule : Nat) : Nat := rule

/-- The mutable static state owned by the BLE advertiser:
`BLE_PARAMS_BUF` (viewed through the `BleAdvertiseParams` overlay),
`BLE_ADV_PAYLOAD` (64 bytes), `BLE_ADV_PAYLOAD_LEN`, `PACKET_BUF`
(viewed through the `BleAdvertise` overlay), `DEVICE_ADDRESS` (6 bytes). -/
structure BleState where
  ble_params_buf : BleAdvertiseParams
  ble_adv_payload : List Nat
  ble_adv_payload_len : Nat
  packet_buf : BleAdvertise
  device_address : List Nat
deriving DecidableEq, Repr

/-- The reset state of the static buffers (all zero-initialised). -/
def initBleState : BleState :=
  { ble_params_buf := zeroParams,
    ble_adv_payload := List.replicate 64 0,
    ble_adv_payload_len := 0,
    packet_buf := zeroPacket,
    device_address := List.replicate 6 0 }

/-- Rust slice `buf[a..b]`: panics (`none`) unless `a ≤ b ∧ b ≤ buf.len()`. -/
def slice (buf : List Nat) (a b : Nat) : Option (List Nat) :=
  if a ≤ b ∧ b ≤ buf.length then some ((buf.drop a).take (b - a)) else none

/-- The copy loops `for (i, c) in src.iter().enumerate() { DEST[i] = *c }`:
write `src` element-wise into `dest` from index 0; indexing past the end
of `dest` panics (`none`). -/
def copyInto : List Nat → List Nat → Option (List Nat)
  | dest, [] => some dest
  | [], _ :: _ => none
  | _ :: ds, v :: vs =>
    match copyInto ds vs with
    | none => none
    | some rest => some (v :: rest)

/-- Lines 106–130 of `replace_adv_payload_buffer`: extract the device
address from `buf[2..8]`, copy `buf[8..len]` into the advertising
payload, record the length byte `(len - 8) as u8`, zero the parameter
and packet regions, and populate the `BleAdvertiseParams` fields
(`device_address`, `adv_len`, `adv_data`, `end_time = 0`,
`end_trigger = 1`). -/
def replace_copy_phase (buf : List Nat) (len : Nat) (st : BleState) :
    Option BleState :=
  (slice buf 2 8).bind fun addr =>
  (copyInto st.device_address addr).bind fun da =>
  (slice buf 8 len).bind fun payload =>
  (copyInto st.ble_adv_payload payload).bind fun pl =>
          some { ble_params_buf :=
                   { zeroParams with
                     device_address := Ptr.deviceAddressBuf,
                     adv_len := (len - 8) % 256,
                     adv_data := Ptr.bleAdvPayloadBuf,
                     end_time := 0,
                     end_trigger := 1 },
                 ble_adv_payload := pl,
                 ble_adv_payload_len := (len - 8) % 256,
                 packet_buf := zeroPacket,
                 device_address := da }

/-- The PDU-type dispatch (`match pdu` in `replace_adv_payload_buffer`):
`0x00/0x01/0x02` map to the `BleAdvertiseCommands` numbers; anything
else hits `panic!`. -/
def ble_command_number (pdu : Nat) : Option Nat :=
  match pdu with
  | 0x00 => some 0x1803
  | 0x01 => some 0x1804
  | 0x02 => some 0x1805
  | _ => none

/-- `replace_adv_payload_buffer` (`ble.rs` lines 98–156): the copy phase
above, then the PDU match on `buf[0]` and the population of the
`BleAdvertise` command in the packet region. -/
def replace_adv_payload_buffer (buf : List Nat) (len : Nat)
    (st : BleState) : Option BleState :=
  (replace_copy_phase buf len st).bind fun st1 =>
  buf[0]?.bind fun pdu =>
  (ble_command_number pdu).bind fun cmdNo =>
        some { st1 with
               packet_buf :=
                 { st1.packet_buf with
                   command_no := cmdNo,
                   condition := rfc_condition_set_rule 1,
                   whitening := ble_whitening_byte,
                   params := Ptr.bleParamsBuf } }

/-- `RadioChannel` values accepted by `advertise` (the HIL enum lives in
the kernel crate; the three advertising channels are matched by name,
every other variant hits `panic!`). -/
inductive RadioChannel
  | advertisingChannel37
  | advertisingChannel38
  | advertisingChannel39
  | dataChannel (n : Nat)
deriving DecidableEq, Repr

/-- The channel match in `advertise`. -/
def channel_number : RadioChannel → Option Nat
  | RadioChannel.advertisingChannel37 => some 37
  | RadioChannel.advertisingChannel38 => some 38
  | RadioChannel.advertisingChannel39 => some 39
  | RadioChannel.dataChannel _ => none

/-- `advertise` (`ble.rs` lines 158–177), with `configure()`'s RFCore
mode handling abstracted away (it touches only external-collaborator
state): map the channel, set `status = 0` and the channel byte on the
command in the packet region, and submit that command. The submitted
command descriptor is returned alongside the new state. -/
def advertise (rc : RadioChannel) (st : BleState) :
    Option (BleState × BleAdvertise) :=
  (channel_number rc).bind fun ch =>
    let cmd := { st.packet_buf with status := 0, channel := ch }
    some ({ st with packet_buf := cmd }, cmd)

/-- `transmit_advertisement` (`ble.rs` lines 192–201):
`replace_adv_payload_buffer` then `advertise`. -/
def transmit_advertisement (buf : List Nat) (len : Nat)
    (rc : RadioChannel) (st : BleState) :
    Option (BleState × BleAdvertise) :=
  (replace_adv_payload_buffer buf len st).bind fun st1 => advertise rc st1

/-! ## AUX domain controller (`aux.rs`) and sleep orchestrator (`chip.rs`)

Register writes and calls into external collaborator modules are recorded
as trace events; reads of the AON `PWR_STAT` register are recorded too,
with the value the hardware returned. -/

/-- `WakeupMode` (`aux.rs`). -/
inductive WakeupMode
  | AllowSleep
  | WakeUp
deriving DecidableEq, Repr

/-- `PowerDomain` variants used by `chip.rs` (the PRCM module itself is
an external collaborator). -/
inductive PowerDomain
  | VIMS
  | RFC
  | CPU
deriving DecidableEq, Repr

/-- Observable effects of the sleep path and the AUX controller, in the
order the code issues them. Each constructor is one register write, one
`PWR_STAT` read, or one call into an external collaborator / hook. -/
inductive SleepEvent
  | beforeSleep (depth : Nat)
  | iolatchWrite (v : Nat)
  | auxCtlWrite (v : Nat)
  | pwrStatRead (v : Nat)
  | ramRetention (enabled : Bool)
  | dmaCryptoDisable
  | domainDisable (d : PowerDomain)
  | domainEnable (d : PowerDomain)
  | jtagEnabled (enabled : Bool)
  | mcuPowerDown
  | rtcSync
  | vimsDisable
  | uldoRelease
  | scrSetSleepDeepSevOnPend
  | scrClearSleepDeep
  | wfi
  | afterWakeup (depth : Nat)
deriving DecidableEq, Repr

/-- `wakeup_event` (`aux.rs` lines 137–143): writes 0 or 1 to the AON
`AUX_CTL` register. -/
def wakeup_event : WakeupMode → SleepEvent
  | WakeupMode.AllowSleep => SleepEvent.auxCtlWrite 0
  | WakeupMode.WakeUp => SleepEvent.auxCtlWrite 1

/-- `power_status` (`aux.rs` lines 145–153): WakeUp iff bit 1 of the
`PWR_STAT` value is set. -/
def power_status (v : Nat) : WakeupMode :=
  if v &&& 0x02 ≠ 0 then WakeupMode.WakeUp else WakeupMode.AllowSleep

/-- The busy-wait loop `while self.power_status() != WakeupMode::WakeUp`
in `power_up`. Input: the successive values the `PWR_STAT` register
returns on each read. Exhausting the list models a loop that never
observes WakeUp (`none`, non-termination). -/
def aux_busy_wait : List Nat → Option (List SleepEvent)
  | [] => none
  | v :: rest =>
    if power_status v = WakeupMode.WakeUp then
      some [SleepEvent.pwrStatRead v]
    else
      match aux_busy_wait rest with
      | none => none
      | some tr => some (SleepEvent.pwrStatRead v :: tr)

/-- `power_up` (`aux.rs` lines 103–112): read the power status once; if
already WakeUp return, else write `AUX_CTL = 1` (`wakeup_event(WakeUp)`)
and busy-wait on the power status. The result is the trace of reads and
writes. -/
def power_up : List Nat → Option (List SleepEvent)
  | [] => none
  | v :: rest =>
    if power_status v = WakeupMode.WakeUp then
      some [SleepEvent.pwrStatRead v]
    else
      match aux_busy_wait rest with
      | none => none
      | some tr =>
        some (SleepEvent.pwrStatRead v :: wakeup_event WakeupMode.WakeUp :: tr)

/-- `SleepMode` (`chip.rs`). -/
inductive SleepMode
  | DeepSleep
  | Sleep
  | Active
deriving DecidableEq, Repr

/-- `SleepMode as u32` (the discriminant values of the Rust enum). -/
def SleepMode.toU32 : SleepMode → Nat
  | SleepMode.DeepSleep => 0
  | SleepMode.Sleep => 1
  | SleepMode.Active => 2

/-- `From<u32> for SleepMode` (`chip.rs` lines 30–39): out-of-range
values hit `unimplemented!`. -/
def sleepMode_from (n : Nat) : Option SleepMode :=
  match n with
  | 0 => some SleepMode.DeepSleep
  | 1 => some SleepMode.Sleep
  | 2 => some SleepMode.Active
  | _ => none

/-- `sleep` (`chip.rs` lines 124–195): the trace of observable effects
for a given sleep mode. The DeepSleep arm performs the entry sequence,
then `wfi`, then the wake sequence; the other arms perform only `wfi`. -/
def sleep (m : SleepMode) : List SleepEvent :=
  (match m with
   | SleepMode.DeepSleep =>
     [SleepEvent.beforeSleep (SleepMode.toU32 SleepMode.DeepSleep),
      SleepEvent.iolatchWrite 0x00,
      wakeup_event WakeupMode.AllowSleep,
      SleepEvent.ramRetention true,
      SleepEvent.dmaCryptoDisable,
      SleepEvent.domainDisable PowerDomain.VIMS,
      SleepEvent.domainDisable PowerDomain.RFC,
      SleepEvent.domainDisable PowerDomain.CPU,
      SleepEvent.jtagEnabled false,
      SleepEvent.mcuPowerDown,
      SleepEvent.rtcSync,
      SleepEvent.vimsDisable,
      SleepEvent.scrSetSleepDeepSevOnPend]
   | _ => [])
  ++ [SleepEvent.wfi] ++
  (match m with
   | SleepMode.DeepSleep =>
     [SleepEvent.rtcSync,
      wakeup_event WakeupMode.WakeUp,
      SleepEvent.uldoRelease,
      SleepEvent.domainEnable PowerDomain.VIMS,
      SleepEvent.domainEnable PowerDomain.CPU,
      SleepEvent.rtcSync,
      SleepEvent.iolatchWrite 0x01,
      SleepEvent.rtcSync,
      SleepEvent.scrClearSleepDeep,
      SleepEvent.afterWakeup (SleepMode.toU32 SleepMode.DeepSleep)]
   | _ => [])

/-! ## Interrupt router (`chip.rs`, `service_pending_interrupts`) -/

/-- The three RFC interrupt kinds forwarded to the radio driver. -/
inductive RfcInterruptKind
  | cmdAck
  | cpe0
  | cpe1
deriving DecidableEq, Repr

/-- The NVIC lines matched by `service_pending_interrupts`. The numeric
values of the named lines are symbolic constants from the `cc26xx`
family crate; `unknown n` stands for any line number with no match arm. -/
inductive NvicLine
  | gpioLine
  | aonRtc
  | uart0
  | gpt0A | gpt0B | gpt1A | gpt1B | gpt2A | gpt2B | gpt3A | gpt3B
  | rfCmdAck
  | rfCpe0
  | rfCpe1
  | aonProg
  | unknown (n : Nat)
deriving DecidableEq, Repr

/-- Handler identities the router can invoke (one per driver; the four
GPT timers each own two NVIC lines, the RFC handler takes the kind). -/
inductive HandlerId
  | gpioPort
  | rtcHandler
  | uart0Handler
  | gpt0 | gpt1 | gpt2 | gpt3
  | rfcHandler (k : RfcInterruptKind)
deriving DecidableEq, Repr

/-- Observable effects of the interrupt router. -/
inductive IrqEvent
  | handle (h : HandlerId)
  | clearPending (l : NvicLine)
  | enable (l : NvicLine)
deriving DecidableEq, Repr

/-- The `match interrupt` arm for a single line: the handler invocations
it performs (`AON_PROG` performs none; an unmatched line hits `panic!`). -/
def dispatch : NvicLine → Option (List IrqEvent)
  | NvicLine.gpioLine => some [IrqEvent.handle HandlerId.gpioPort]
  | NvicLine.aonRtc => some [IrqEvent.handle HandlerId.rtcHandler]
  | NvicLine.uart0 => some [IrqEvent.handle HandlerId.uart0Handler]
  | NvicLine.gpt0A => some [IrqEvent.handle HandlerId.gpt0]
  | NvicLine.gpt0B => some [IrqEvent.handle HandlerId.gpt0]
  | NvicLine.gpt1A => some [IrqEvent.handle HandlerId.gpt1]
  | NvicLine.gpt1B => some [IrqEvent.handle HandlerId.gpt1]
  | NvicLine.gpt2A => some [IrqEvent.handle HandlerId.gpt2]
  | NvicLine.gpt2B => some [IrqEvent.handle HandlerId.gpt2]
  | NvicLine.gpt3A => some [IrqEvent.handle HandlerId.gpt3]
  | NvicLine.gpt3B => some [IrqEvent.handle HandlerId.gpt3]
  | NvicLine.rfCmdAck => some [IrqEvent.handle (HandlerId.rfcHandler RfcInterruptKind.cmdAck)]
  | NvicLine.rfCpe0 => some [IrqEvent.handle (HandlerId.rfcHandler RfcInterruptKind.cpe0)]
  | NvicLine.rfCpe1 => some [IrqEvent.handle (HandlerId.rfcHandler RfcInterruptKind.cpe1)]
  | NvicLine.aonProg => some []
  | NvicLine.unknown _ => none

/-- `service_pending_interrupts` (`chip.rs` lines 86–118): for each line
the NVIC yields, run the match arm, then `clear_pending` and `enable`
that line. Input: the lines `nvic::next_pending` yields, in order. -/
def service_pending_interrupts : List NvicLine → Option (List IrqEvent)
  | [] => some []
  | l :: rest =>
    (dispatch l).bind fun evs =>
    (service_pending_interrupts rest).map fun tr =>
      evs ++ [IrqEvent.clearPending l, IrqEvent.enable l] ++ tr

/-- The buffer of the spec's cold-boot-advertise scenario:
`[0x00, 0x06, 0x11,0x22,0x33,0x44,0x55,0x66, 0xAA,0xBB]`. -/
def demoAdvBuf : List Nat :=
  [0x00, 0x06, 0x11, 0x22, 0x33, 0x44, 0x55, 0x66, 0xAA, 0xBB]

/-- "After every wake request (`AUX_CTL ← 1`) the implementation
busy-waits reading the AUX power status before proceeding": the event
right after any `auxCtlWrite 1` in the trace is a `PWR_STAT` read. -/
def busy_waits_after_wake (tr : List SleepEvent) : Prop :=
  ∀ i, tr[i]? = some (SleepEvent.auxCtlWrite 1) →
    ∃ v, tr[i + 1]? = some (SleepEvent.pwrStatRead v)

/-! ## Theorems -/

/-- C1 (counterexample): on the spec's own cold-boot buffer, the
whitening byte placed in the `BleAdvertise` command by
`replace_adv_payload_buffer` is 0x51, not the claimed 0xA3: `set_init`
occupies bits 6..0, so `set_init(0x51)` overwrites the bit that
`set_override(true)` had set (bit 1). -/
theorem whitening_byte_not_A3 :
    (replace_adv_payload_buffer demoAdvBuf 10 initBleState).map
        (fun s => s.packet_buf.whitening) = some 0x51 ∧
      (0x51 : Nat) ≠ 0xA3 := by
  exact ⟨by decide, by decide⟩

/-- C1 (amended): whenever `replace_adv_payload_buffer` returns, the
whitening byte of the populated command equals 0x51 — `set_override(true)`
sets bit 1, but the `bitfield!` declaration gives `init` bits 6..0, so
the subsequent `set_init(0x51)` overwrites bit 1 and the override flag is
lost; the byte holds only the init seed 0x51. -/
theorem whitening_byte_eq_51 (buf : List Nat) (len : Nat)
    (st st' : BleState)
    (h : replace_adv_payload_buffer buf len st = some st') :
    st'.packet_buf.whitening = 0x51 := by
  unfold replace_adv_payload_buffer at h
  rw [Option.bind_eq_some] at h
  obtain ⟨st1, -, h⟩ := h
  rw [Option.bind_eq_some] at h
  obtain ⟨pdu, -, h⟩ := h
  rw [Option.bind_eq_some] at h
  obtain ⟨cmdNo, -, h⟩ := h
  injection h with h
  subst h
  rfl

/-- Witness for the amended C1 at the spec's cold-boot buffer. -/
theorem whitening_byte_eq_51_witness :
    ((replace_adv_payload_buffer demoAdvBuf 10 initBleState).get
        (by decide)).packet_buf.whitening = 0x51 :=
  whitening_byte_eq_51 demoAdvBuf 10 initBleState _
    (Option.some_get (by decide)).symm

/-- C2: entering sleep at depth DeepSleep performs, before the
wait-for-interrupt, exactly: the `before_sleep` hook (depth 0),
`IOLATCH ← 0`, `AUX_CTL ← 0` (AllowSleep), MCU SRAM retention enabled,
DMA and crypto clocks force-disabled, power domains VIMS then RFC then
CPU disabled, JTAG disabled, MCU power-down requested, RTC sync, VIMS
flash-cache disable, and finally SLEEP_DEEP and SEV_ON_PEND set in the
system-control register. -/
theorem sleep_deep_entry_order :
    (sleep SleepMode.DeepSleep).take 14 =
      [SleepEvent.beforeSleep 0,
       SleepEvent.iolatchWrite 0,
       SleepEvent.auxCtlWrite 0,
       SleepEvent.ramRetention true,
       SleepEvent.dmaCryptoDisable,
       SleepEvent.domainDisable PowerDomain.VIMS,
       SleepEvent.domainDisable PowerDomain.RFC,
       SleepEvent.domainDisable PowerDomain.CPU,
       SleepEvent.jtagEnabled false,
       SleepEvent.mcuPowerDown,
       SleepEvent.rtcSync,
       SleepEvent.vimsDisable,
       SleepEvent.scrSetSleepDeepSevOnPend,
       SleepEvent.wfi] := by
  decide

/-- C3: after the wait-for-interrupt (which sits at index 13 of the
DeepSleep trace), the orchestrator performs exactly: RTC sync,
`AUX_CTL ← 1` (WakeUp), uLDO release, power domains VIMS then CPU
enabled, RTC sync, `IOLATCH ← 1`, RTC sync, SLEEP_DEEP cleared, and the
`after_wakeup` hook — invoked exactly once, with the entry depth 0. -/
theorem sleep_deep_wake_order :
    (sleep SleepMode.DeepSleep)[13]? = some SleepEvent.wfi ∧
      (sleep SleepMode.DeepSleep).drop 14 =
        [SleepEvent.rtcSync,
         SleepEvent.auxCtlWrite 1,
         SleepEvent.uldoRelease,
         SleepEvent.domainEnable PowerDomain.VIMS,
         SleepEvent.domainEnable PowerDomain.CPU,
         SleepEvent.rtcSync,
         SleepEvent.iolatchWrite 1,
         SleepEvent.rtcSync,
         SleepEvent.scrClearSleepDeep,
         SleepEvent.afterWakeup 0] ∧
      (sleep SleepMode.DeepSleep).count (SleepEvent.afterWakeup 0) = 1 := by
  refine ⟨by decide, by decide, by decide⟩

/-- C9: for the non-DeepSleep depths (Sleep = 1, Active = 2) the sleep
operation's whole trace is the single wait-for-interrupt: no register
write and no power-manager hook occurs before or after it. -/
theorem sleep_non_deep_only_wfi :
    sleep SleepMode.Sleep = [SleepEvent.wfi] ∧
      sleep SleepMode.Active = [SleepEvent.wfi] ∧
      sleepMode_from 1 = some SleepMode.Sleep ∧
      sleepMode_from 2 = some SleepMode.Active := by
  refine ⟨rfl, rfl, rfl, rfl⟩

/-- Helper: `power_status v = WakeUp` exactly when bit 1 of `v` is set. -/
theorem power_status_wakeup_iff (v : Nat) :
    power_status v = WakeupMode.WakeUp ↔ v &&& 0x02 ≠ 0 := by
  unfold power_status
  by_cases h : v &&& 0x02 ≠ 0 <;> simp [h]

/-- Helper: definitional unfolding of `aux_busy_wait` on a cons. -/
theorem aux_busy_wait_cons (v : Nat) (rest : List Nat) :
    aux_busy_wait (v :: rest) =
      if power_status v = WakeupMode.WakeUp then some [SleepEvent.pwrStatRead v]
      else
        match aux_busy_wait rest with
        | none => none
        | some tr => some (SleepEvent.pwrStatRead v :: tr) := rfl

/-- Helper: definitional unfolding of `power_up` on a cons. -/
theorem power_up_cons (v : Nat) (rest : List Nat) :
    power_up (v :: rest) =
      if power_status v = WakeupMode.WakeUp then some [SleepEvent.pwrStatRead v]
      else
        match aux_busy_wait rest with
        | none => none
        | some tr =>
          some (SleepEvent.pwrStatRead v ::
            wakeup_event WakeupMode.WakeUp :: tr) := rfl

/-- Helper: the busy-wait loop consumes the leading AllowSleep reads and
stops at the first WakeUp read. -/
theorem aux_busy_wait_eq (pre : List Nat) (v : Nat) (suf : List Nat)
    (hpre : ∀ x ∈ pre, x &&& 0x02 = 0) (hv : v &&& 0x02 ≠ 0) :
    aux_busy_wait (pre ++ v :: suf) =
      some (pre.map SleepEvent.pwrStatRead ++ [SleepEvent.pwrStatRead v]) := by
  induction pre with
  | nil =>
    have hw : power_status v = WakeupMode.WakeUp :=
      (power_status_wakeup_iff v).mpr hv
    simp [aux_busy_wait, hw]
  | cons p ps ih =>
    have hp : power_status p = WakeupMode.AllowSleep := by
      have : p &&& 0x02 = 0 := hpre p (by simp)
      simp [power_status, this]
    have hps : ∀ x ∈ ps, x &&& 0x02 = 0 := fun x hx => hpre x (by simp [hx])
    have hne : ¬ power_status p = WakeupMode.WakeUp := by
      rw [hp]; intro hc; cases hc
    rw [List.cons_append, aux_busy_wait_cons, if_neg hne, ih hps]
    simp

/-- Helper: `power_up` when the initial status already shows WakeUp. -/
theorem power_up_eq_no_write (v : Nat) (rest : List Nat)
    (h : v &&& 0x02 ≠ 0) :
    power_up (v :: rest) = some [SleepEvent.pwrStatRead v] := by
  have hw : power_status v = WakeupMode.WakeUp :=
    (power_status_wakeup_iff v).mpr h
  simp [power_up, hw]

/-- Helper: `power_up` when the initial status shows AllowSleep: one
`AUX_CTL ← 1` write, then reads until the first WakeUp status. -/
theorem power_up_eq_write (v v' : Nat) (pre suf : List Nat)
    (h0 : v &&& 0x02 = 0) (hpre : ∀ x ∈ pre, x &&& 0x02 = 0)
    (h1 : v' &&& 0x02 ≠ 0) :
    power_up (v :: pre ++ v' :: suf) =
      some (SleepEvent.pwrStatRead v :: SleepEvent.auxCtlWrite 1 ::
        (pre.map SleepEvent.pwrStatRead ++ [SleepEvent.pwrStatRead v'])) := by
  have hv : power_status v = WakeupMode.AllowSleep := by
    simp [power_status, h0]
  have hne : ¬ power_status v = WakeupMode.WakeUp := by
    rw [hv]; intro hc; cases hc
  rw [show v :: pre ++ v' :: suf = v :: (pre ++ v' :: suf) from rfl,
    power_up_cons, if_neg hne, aux_busy_wait_eq pre v' suf hpre h1]
  rfl

/-- C8: if the initial `PWR_STAT` read has bit 1 set, `power_up` returns
with no register write (its trace is that one read); if bit 1 is clear,
`power_up` writes `AUX_CTL = 1` exactly once and then reads `PWR_STAT`
repeatedly, returning exactly when it first observes bit 1 set. -/
theorem power_up_write_once (v v' : Nat) (pre suf : List Nat) :
    (v &&& 0x02 ≠ 0 →
      power_up (v :: pre ++ v' :: suf) = some [SleepEvent.pwrStatRead v]) ∧
    (v &&& 0x02 = 0 → (∀ x ∈ pre, x &&& 0x02 = 0) → v' &&& 0x02 ≠ 0 →
      power_up (v :: pre ++ v' :: suf) =
        some (SleepEvent.pwrStatRead v :: SleepEvent.auxCtlWrite 1 ::
          (pre.map SleepEvent.pwrStatRead ++ [SleepEvent.pwrStatRead v'])) ∧
      (SleepEvent.pwrStatRead v :: SleepEvent.auxCtlWrite 1 ::
          (pre.map SleepEvent.pwrStatRead ++
            [SleepEvent.pwrStatRead v'])).count (SleepEvent.auxCtlWrite 1)
        = 1) := by
  constructor
  · intro h
    exact power_up_eq_no_write v (pre ++ v' :: suf) h
  · intro h0 hpre h1
    refine ⟨power_up_eq_write v v' pre suf h0 hpre h1, ?_⟩
    have hz : (pre.map SleepEvent.pwrStatRead).count
        (SleepEvent.auxCtlWrite 1) = 0 := by
      rw [List.count_eq_zero]
      intro hmem
      obtain ⟨x, -, hx⟩ := List.mem_map.mp hmem
      cases hx
    simp [List.count_cons, List.count_append, hz]

/-- Witness for C8 at `PWR_STAT` streams `[2]` (already powered) and
`[0, 0, 2, 5]` (write then poll). -/
theorem power_up_write_once_witness :
    power_up [2] = some [SleepEvent.pwrStatRead 2] ∧
      power_up [0, 0, 2, 5] =
        some [SleepEvent.pwrStatRead 0, SleepEvent.auxCtlWrite 1,
          SleepEvent.pwrStatRead 0, SleepEvent.pwrStatRead 2] := by
  constructor
  · exact (power_up_write_once 2 2 [] []).1 (by decide)
  · exact ((power_up_write_once 0 2 [0] [5]).2 (by decide)
      (by decide) (by decide)).1

/-- C4 (counterexample): the claim that every code path issuing a wake
request busy-waits on the AUX power status before proceeding fails on
the post-WFI wake sequence of `sleep`: the DeepSleep trace has
`AUX_CTL ← 1` at index 15, and the next event is the uLDO release, not a
`PWR_STAT` read. -/
theorem sleep_wake_no_busy_wait_cx :
    ¬ busy_waits_after_wake (sleep SleepMode.DeepSleep) := by
  intro h
  obtain ⟨v, hv⟩ := h 15 (by decide)
  have h16 : (sleep SleepMode.DeepSleep)[16]? = some SleepEvent.uldoRelease := by
    decide
  rw [h16] at hv
  simp at hv

/-- C4 (amended): `power_up` does busy-wait reading the AUX power status
until it reads WakeUp after issuing its wake request, but the post-WFI
wake sequence of the sleep orchestrator issues its wake request
(`AUX_CTL ← 1`) without reading the power status at all. -/
theorem busy_wait_only_in_power_up (v v' : Nat) (pre suf : List Nat)
    (h0 : v &&& 0x02 = 0) (hpre : ∀ x ∈ pre, x &&& 0x02 = 0)
    (h1 : v' &&& 0x02 ≠ 0) :
    (∀ tr, power_up (v :: pre ++ v' :: suf) = some tr →
        busy_waits_after_wake tr ∧
          tr.getLast? = some (SleepEvent.pwrStatRead v')) ∧
      wakeup_event WakeupMode.WakeUp ∈ sleep SleepMode.DeepSleep ∧
      (∀ w, SleepEvent.pwrStatRead w ∉ sleep SleepMode.DeepSleep) := by
  refine ⟨?_, by decide, ?_⟩
  swap
  · intro w hw
    simp [sleep, wakeup_event] at hw
  intro tr htr
  rw [power_up_eq_write v v' pre suf h0 hpre h1] at htr
  cases htr
  constructor
  · intro i hi
    match i with
    | 0 => simp at hi
    | 1 =>
      cases pre with
      | nil => exact ⟨v', by simp⟩
      | cons p ps => exact ⟨p, by simp⟩
    | (j + 2) =>
      simp only [List.getElem?_cons_succ] at hi
      have hmem := List.getElem?_mem hi
      rcases List.mem_append.mp hmem with hm | hm
      · obtain ⟨x, -, hx⟩ := List.mem_map.mp hm
        cases hx
      · simp at hm
  · show (SleepEvent.pwrStatRead v :: SleepEvent.auxCtlWrite 1 ::
      (pre.map SleepEvent.pwrStatRead ++ [SleepEvent.pwrStatRead v'])).getLast?
      = some (SleepEvent.pwrStatRead v')
    rw [show SleepEvent.pwrStatRead v :: SleepEvent.auxCtlWrite 1 ::
        (pre.map SleepEvent.pwrStatRead ++ [SleepEvent.pwrStatRead v']) =
        (SleepEvent.pwrStatRead v :: SleepEvent.auxCtlWrite 1 ::
          pre.map SleepEvent.pwrStatRead) ++ [SleepEvent.pwrStatRead v']
      from by simp]
    exact List.getLast?_concat _

/-- Witness for the amended C4 at the `PWR_STAT` stream `[0, 0, 2, 5]`. -/
theorem busy_wait_only_in_power_up_witness :
    busy_waits_after_wake [SleepEvent.pwrStatRead 0, SleepEvent.auxCtlWrite 1,
        SleepEvent.pwrStatRead 0, SleepEvent.pwrStatRead 2] ∧
      SleepEvent.pwrStatRead 7 ∉ sleep SleepMode.DeepSleep := by
  have h := busy_wait_only_in_power_up 0 2 [0] [5] (by decide)
    (by decide) (by decide)
  exact ⟨(h.1 _ (by decide)).1, h.2.2 7⟩

/-- Helper: a slice with a valid range. -/
theorem slice_pos (buf : List Nat) (a b : Nat) (h1 : a ≤ b)
    (h2 : b ≤ buf.length) :
    slice buf a b = some ((buf.drop a).take (b - a)) := by
  simp [slice, h1, h2]

/-- Helper: a slice whose end exceeds the buffer panics. -/
theorem slice_none_of_len (buf : List Nat) (a b : Nat)
    (h : buf.length < b) : slice buf a b = none := by
  simp only [slice, ite_eq_right_iff]
  intro hc
  omega

/-- Helper: a slice with a reversed range panics. -/
theorem slice_none_of_rev (buf : List Nat) (a b : Nat) (h : b < a) :
    slice buf a b = none := by
  simp only [slice, ite_eq_right_iff]
  intro hc
  omega

/-- Helper: copying a source that fits overwrites the prefix of the
destination and keeps its tail. -/
theorem copyInto_of_le (src : List Nat) : ∀ dest : List Nat,
    src.length ≤ dest.length →
    copyInto dest src = some (src ++ dest.drop src.length) := by
  induction src with
  | nil => intro dest _; cases dest <;> rfl
  | cons v vs ih =>
    intro dest h
    cases dest with
    | nil => simp at h
    | cons d ds =>
      have h' : vs.length ≤ ds.length := by
        simpa [Nat.succ_le_succ_iff] using h
      show (match copyInto ds vs with
            | none => none
            | some rest => some (v :: rest)) = _
      rw [ih ds h']
      rfl

/-- Helper: copying a source longer than the destination panics. -/
theorem copyInto_none (src : List Nat) : ∀ dest : List Nat,
    dest.length < src.length → copyInto dest src = none := by
  induction src with
  | nil => intro dest h; simp at h
  | cons v vs ih =>
    intro dest h
    cases dest with
    | nil => rfl
    | cons d ds =>
      have h' : ds.length < vs.length := by
        simpa [Nat.succ_lt_succ_iff] using h
      show (match copyInto ds vs with
            | none => none
            | some rest => some (v :: rest)) = _
      rw [ih ds h']

/-- Helper: full characterisation of the copy phase on valid input. -/
theorem replace_copy_phase_eq (buf : List Nat) (len : Nat) (st : BleState)
    (h8 : 8 ≤ len) (h72 : len ≤ 72) (hbuf : len ≤ buf.length)
    (hda : st.device_address.length = 6)
    (hpl : st.ble_adv_payload.length = 64) :
    replace_copy_phase buf len st = some
      { ble_params_buf :=
          { zeroParams with
            device_address := Ptr.deviceAddressBuf,
            adv_len := len - 8,
            adv_data := Ptr.bleAdvPayloadBuf,
            end_time := 0,
            end_trigger := 1 },
        ble_adv_payload :=
          (buf.drop 8).take (len - 8) ++ st.ble_adv_payload.drop (len - 8),
        ble_adv_payload_len := len - 8,
        packet_buf := zeroPacket,
        device_address := (buf.drop 2).take 6 } := by
  have hb8 : (8 : Nat) ≤ buf.length := le_trans h8 hbuf
  have haddr : ((buf.drop 2).take (8 - 2)).length = 6 := by
    simp [List.length_take, List.length_drop]
    omega
  have hpay : ((buf.drop 8).take (len - 8)).length = len - 8 := by
    simp [List.length_take, List.length_drop]
    omega
  have hdrop6 : st.device_address.drop 6 = [] :=
    List.drop_eq_nil_of_le (by omega)
  have hmod : (len - 8) % 256 = len - 8 := Nat.mod_eq_of_lt (by omega)
  unfold replace_copy_phase
  rw [slice_pos buf 2 8 (by omega) hb8, Option.some_bind,
    copyInto_of_le _ _ (by rw [haddr, hda]), Option.some_bind,
    slice_pos buf 8 len h8 hbuf, Option.some_bind,
    copyInto_of_le _ _ (by rw [hpay, hpl]; omega), Option.some_bind,
    haddr, hpay, hdrop6, hmod]
  simp

/-- C10: `replace_adv_payload_buffer`'s copy code (lines 98–123) is
partial in `len`: it panics whenever `len < 8` (the range `8..len` is
invalid), whenever `len` exceeds the input buffer's length, and whenever
`len − 8` exceeds the 64-byte advertising-payload region (`len > 72`);
for `8 ≤ len ≤ 72` with `len ≤ buf.len()` the copy phase completes —
a precondition the spec never states. -/
theorem replace_adv_payload_valid_range (buf : List Nat) (len : Nat)
    (st : BleState) (hda : st.device_address.length = 6)
    (hpl : st.ble_adv_payload.length = 64) :
    (len < 8 → replace_copy_phase buf len st = none) ∧
      (buf.length < len → replace_copy_phase buf len st = none) ∧
      (72 < len → replace_copy_phase buf len st = none) ∧
      (8 ≤ len → len ≤ 72 → len ≤ buf.length →
        (replace_copy_phase buf len st).isSome = true) := by
  refine ⟨?_, ?_, ?_, ?_⟩
  · intro h
    by_cases hb : buf.length < 8
    · unfold replace_copy_phase
      rw [slice_none_of_len buf 2 8 hb, Option.none_bind]
    · unfold replace_copy_phase
      rw [slice_pos buf 2 8 (by omega) (by omega), Option.some_bind,
        copyInto_of_le _ _ (by simp [List.length_take, List.length_drop, hda]),
        Option.some_bind, slice_none_of_rev buf 8 len h, Option.none_bind]
  · intro h
    by_cases hb : buf.length < 8
    · unfold replace_copy_phase
      rw [slice_none_of_len buf 2 8 hb, Option.none_bind]
    · unfold replace_copy_phase
      rw [slice_pos buf 2 8 (by omega) (by omega), Option.some_bind,
        copyInto_of_le _ _ (by simp [List.length_take, List.length_drop, hda]),
        Option.some_bind, slice_none_of_len buf 8 len h, Option.none_bind]
  · intro h
    by_cases hb : buf.length < 8
    · unfold replace_copy_phase
      rw [slice_none_of_len buf 2 8 hb, Option.none_bind]
    · by_cases hlb : buf.length < len
      · unfold replace_copy_phase
        rw [slice_pos buf 2 8 (by omega) (by omega), Option.some_bind,
          copyInto_of_le _ _ (by simp [List.length_take, List.length_drop, hda]),
          Option.some_bind, slice_none_of_len buf 8 len hlb, Option.none_bind]
      · unfold replace_copy_phase
        rw [slice_pos buf 2 8 (by omega) (by omega), Option.some_bind,
          copyInto_of_le _ _ (by simp [List.length_take, List.length_drop, hda]),
          Option.some_bind, slice_pos buf 8 len (by omega) (by omega), Option.some_bind,
          copyInto_none _ _ (by simp only [List.length_take, List.length_drop, hpl]; omega),
          Option.none_bind]
  · intro h8 h72 hbuf
    rw [replace_copy_phase_eq buf len st h8 h72 hbuf hda hpl]
    rfl

/-- Witness for C10 at `len = 7` (panic), `len = 11 > buf.len()` (panic),
`len = 73` (panic), and `len = 10` (success) on the cold-boot buffer. -/
theorem replace_adv_payload_valid_range_witness :
    replace_copy_phase demoAdvBuf 7 initBleState = none ∧
      replace_copy_phase demoAdvBuf 11 initBleState = none ∧
      replace_copy_phase ((List.range 80).map id) 73 initBleState = none ∧
      (replace_copy_phase demoAdvBuf 10 initBleState).isSome = true := by
  refine ⟨?_, ?_, ?_, ?_⟩
  · exact (replace_adv_payload_valid_range demoAdvBuf 7 initBleState
      (by decide) (by decide)).1 (by decide)
  · exact (replace_adv_payload_valid_range demoAdvBuf 11 initBleState
      (by decide) (by decide)).2.1 (by decide)
  · exact (replace_adv_payload_valid_range ((List.range 80).map id) 73
      initBleState (by decide) (by decide)).2.2.1 (by decide)
  · exact (replace_adv_payload_valid_range demoAdvBuf 10 initBleState
      (by decide) (by decide)).2.2.2 (by decide) (by decide) (by decide)

/-- C6: for every buffer and length with `8 ≤ len`, `len` within the
static region sizes (`len ≤ 72`) and `len ≤ buf.len()`, the copy code of
`replace_adv_payload` puts bytes 2..8 of `buf` in the 6-byte
device-address region, bytes 8..len in the first `len − 8` bytes of the
advertising-payload region, records adv-length `len − 8`, and fills the
parameter region with the device-address pointer, adv-data pointer,
`end_trigger = 1`, `end_time = 0` and every other field zero; the full
`replace_adv_payload_buffer`, whenever it returns, leaves exactly these
values in place. -/
theorem replace_adv_payload_copies (buf : List Nat) (len : Nat)
    (st : BleState) (h8 : 8 ≤ len) (h72 : len ≤ 72)
    (hbuf : len ≤ buf.length) (hda : st.device_address.length = 6)
    (hpl : st.ble_adv_payload.length = 64) :
    (∃ st1, replace_copy_phase buf len st = some st1 ∧
        st1.device_address = (buf.drop 2).take 6 ∧
        st1.ble_adv_payload.take (len - 8) = (buf.drop 8).take (len - 8) ∧
        st1.ble_adv_payload_len = len - 8 ∧
        st1.ble_params_buf =
          { rx_queue := Ptr.null, rx_config := 0, adv_config := 0,
            adv_len := len - 8, scan_rsp_len := 0,
            adv_data := Ptr.bleAdvPayloadBuf, scan_rsp_data := Ptr.null,
            device_address := Ptr.deviceAddressBuf,
            white_list := Ptr.null, dummy0 := 0, dummy1 := 0,
            end_trigger := 1, end_time := 0 }) ∧
      (∀ st', replace_adv_payload_buffer buf len st = some st' →
        st'.device_address = (buf.drop 2).take 6 ∧
        st'.ble_adv_payload.take (len - 8) = (buf.drop 8).take (len - 8) ∧
        st'.ble_adv_payload_len = len - 8 ∧
        st'.ble_params_buf =
          { rx_queue := Ptr.null, rx_config := 0, adv_config := 0,
            adv_len := len - 8, scan_rsp_len := 0,
            adv_data := Ptr.bleAdvPayloadBuf, scan_rsp_data := Ptr.null,
            device_address := Ptr.deviceAddressBuf,
            white_list := Ptr.null, dummy0 := 0, dummy1 := 0,
            end_trigger := 1, end_time := 0 }) := by
  have hpay : ((buf.drop 8).take (len - 8)).length = len - 8 := by
    simp [List.length_take, List.length_drop]
    omega
  constructor
  · refine ⟨_, replace_copy_phase_eq buf len st h8 h72 hbuf hda hpl,
      rfl, ?_, rfl, rfl⟩
    exact List.take_left' hpay
  · intro st' h
    unfold replace_adv_payload_buffer at h
    rw [replace_copy_phase_eq buf len st h8 h72 hbuf hda hpl,
      Option.some_bind, Option.bind_eq_some] at h
    obtain ⟨pdu, -, h⟩ := h
    rw [Option.bind_eq_some] at h
    obtain ⟨cmdNo, -, h⟩ := h
    injection h with h
    subst h
    exact ⟨rfl, List.take_left' hpay, rfl, rfl⟩

/-- Witness for C6 at the spec's 30-byte payload-extraction scenario:
a 30-byte buffer `0, 1, …, 29` with `len = 30`. -/
theorem replace_adv_payload_copies_witness :
    ∃ st1, replace_copy_phase (List.range 30) 30 initBleState = some st1 ∧
      st1.device_address = [2, 3, 4, 5, 6, 7] ∧
      st1.ble_adv_payload_len = 22 := by
  obtain ⟨⟨st1, hsome, hda', -, hlen, -⟩, -⟩ :=
    replace_adv_payload_copies (List.range 30) 30 initBleState
      (by decide) (by decide) (by decide) (by decide) (by decide)
  exact ⟨st1, hsome, by rw [hda']; decide, by rw [hlen]⟩

/-- Helper: an out-of-range PDU type hits the `panic!` arm. -/
theorem ble_command_number_none (b : Nat) (h0 : b ≠ 0x00) (h1 : b ≠ 0x01)
    (h2 : b ≠ 0x02) : ble_command_number b = none := by
  match b, h0, h1, h2 with
  | 0, h0, _, _ => exact absurd rfl h0
  | 1, _, h1, _ => exact absurd rfl h1
  | 2, _, _, h2 => exact absurd rfl h2
  | (n + 3), _, _, _ => rfl

/-- C5: on a buffer whose copies succeed, byte 0 of the input maps to
the command number as 0x00 → 0x1803, 0x01 → 0x1804, 0x02 → 0x1805, and
every other byte-0 value makes `replace_adv_payload_buffer` panic
(`none`), in which case `transmit_advertisement` submits nothing to the
radio core. -/
theorem pdu_command_mapping (buf : List Nat) (len : Nat) (st : BleState)
    (h8 : 8 ≤ len) (h72 : len ≤ 72) (hbuf : len ≤ buf.length)
    (hda : st.device_address.length = 6)
    (hpl : st.ble_adv_payload.length = 64) :
    (buf[0]? = some 0x00 →
      (replace_adv_payload_buffer buf len st).map
        (fun s => s.packet_buf.command_no) = some 0x1803) ∧
    (buf[0]? = some 0x01 →
      (replace_adv_payload_buffer buf len st).map
        (fun s => s.packet_buf.command_no) = some 0x1804) ∧
    (buf[0]? = some 0x02 →
      (replace_adv_payload_buffer buf len st).map
        (fun s => s.packet_buf.command_no) = some 0x1805) ∧
    (∀ b, buf[0]? = some b → b ≠ 0x00 → b ≠ 0x01 → b ≠ 0x02 →
      replace_adv_payload_buffer buf len st = none ∧
      ∀ rc, transmit_advertisement buf len rc st = none) := by
  have hcp := replace_copy_phase_eq buf len st h8 h72 hbuf hda hpl
  refine ⟨?_, ?_, ?_, ?_⟩
  · intro h0
    unfold replace_adv_payload_buffer
    rw [hcp, Option.some_bind, h0, Option.some_bind]
    rfl
  · intro h0
    unfold replace_adv_payload_buffer
    rw [hcp, Option.some_bind, h0, Option.some_bind]
    rfl
  · intro h0
    unfold replace_adv_payload_buffer
    rw [hcp, Option.some_bind, h0, Option.some_bind]
    rfl
  · intro b hb h0 h1 h2
    have hrep : replace_adv_payload_buffer buf len st = none := by
      unfold replace_adv_payload_buffer
      rw [hcp, Option.some_bind, hb, Option.some_bind,
        ble_command_number_none b h0 h1 h2, Option.none_bind]
    refine ⟨hrep, fun rc => ?_⟩
    unfold transmit_advertisement
    rw [hrep, Option.none_bind]

/-- Witness for C5: PDU 0x00 maps to 0x1803 on the cold-boot buffer, and
PDU 0x03 panics with no submission on channel 37. -/
theorem pdu_command_mapping_witness :
    (replace_adv_payload_buffer demoAdvBuf 10 initBleState).map
        (fun s => s.packet_buf.command_no) = some 0x1803 ∧
      transmit_advertisement (3 :: demoAdvBuf.drop 1) 10
        RadioChannel.advertisingChannel37 initBleState = none := by
  constructor
  · exact (pdu_command_mapping demoAdvBuf 10 initBleState (by decide)
      (by decide) (by decide) (by decide) (by decide)).1 (by decide)
  · exact ((pdu_command_mapping (3 :: demoAdvBuf.drop 1) 10 initBleState
      (by decide) (by decide) (by decide) (by decide) (by decide)).2.2.2
      3 (by decide) (by decide) (by decide) (by decide)).2
      RadioChannel.advertisingChannel37

/-- Helper: definitional unfolding of the interrupt service loop. -/
theorem service_pending_cons (l : NvicLine) (rest : List NvicLine) :
    service_pending_interrupts (l :: rest) =
      (dispatch l).bind fun evs =>
      (service_pending_interrupts rest).map fun tr =>
        evs ++ [IrqEvent.clearPending l, IrqEvent.enable l] ++ tr := rfl

/-- C7: for every line the NVIC yields: a line with a static binding
contributes exactly one invocation of its bound handler followed by the
pending-clear and re-enable of that line; `AON_PROG` contributes only
the clear and re-enable; a line with no binding aborts the service loop
with a panic. The last two conjuncts identify the three categories:
exactly the `unknown` lines have no binding, and every line other than
`AON_PROG` and `unknown` has a single bound handler. -/
theorem service_line_behavior (l : NvicLine) (rest : List NvicLine) :
    (dispatch l = none → service_pending_interrupts (l :: rest) = none) ∧
      (l = NvicLine.aonProg →
        service_pending_interrupts (l :: rest) =
          (service_pending_interrupts rest).map
            (fun tr => IrqEvent.clearPending l :: IrqEvent.enable l :: tr)) ∧
      (∀ hid, dispatch l = some [IrqEvent.handle hid] →
        service_pending_interrupts (l :: rest) =
          (service_pending_interrupts rest).map
            (fun tr => IrqEvent.handle hid :: IrqEvent.clearPending l ::
              IrqEvent.enable l :: tr)) ∧
      (dispatch l = none ↔ ∃ n, l = NvicLine.unknown n) ∧
      ((∃ hid, dispatch l = some [IrqEvent.handle hid]) ↔
        (l ≠ NvicLine.aonProg ∧ ∀ n, l ≠ NvicLine.unknown n)) := by
  refine ⟨?_, ?_, ?_, ?_, ?_⟩
  · intro h
    rw [service_pending_cons, h, Option.none_bind]
  · intro h
    subst h
    rfl
  · intro hid h
    rw [service_pending_cons, h, Option.some_bind]
    rfl
  · cases l <;> simp [dispatch]
  · cases l <;> simp [dispatch]

/-- Witness for C7: servicing pending `{UART0, AON_PROG}` invokes the
UART handler once, then clears and re-enables each line. -/
theorem service_line_behavior_witness :
    service_pending_interrupts [NvicLine.uart0, NvicLine.aonProg] =
      some [IrqEvent.handle HandlerId.uart0Handler,
        IrqEvent.clearPending NvicLine.uart0,
        IrqEvent.enable NvicLine.uart0,
        IrqEvent.clearPending NvicLine.aonProg,
        IrqEvent.enable NvicLine.aonProg] := by
  have h := (service_line_behavior NvicLine.uart0 [NvicLine.aonProg]).2.2.1
    HandlerId.uart0Handler rfl
  rw [h]
  rfl

end Cc26x0
